import Mathlib

/-!
# NoviceHall page helpers (`src/script.js`)

A shallow embedding of the four controllers wired up by `script.js`:

* the theme helpers `setTheme`, `prefersDark`, `initTheme` (lines 9-23), over a
  storage whose reads and writes may throw;
* the exposure of the helper object on `window.NoviceHall` (line 26) and the later
  assignments to `NH.toggleNav` (lines 91, 121);
* the navigation handlers (lines 61-127), including the floating sub-state with
  its animation-frame callback queue;
* the header scroll-collapse `update` (lines 132-173).

Scroll offsets, pointer coordinates and viewport widths are CSS pixels and
timestamps are `Date.now()` milliseconds; all are modelled as `Int`.
-/

namespace NoviceHall

/-! ## Theme helpers -/

/-- Browser `localStorage`: the stored items, and whether `getItem` / `setItem`
throw (storage disabled or unavailable). -/
structure Storage where
  items : List (String × String)
  getThrows : Bool
  setThrows : Bool
  deriving DecidableEq, Repr

/-- The value thrown by a storage access. -/
inductive Err where
  | storageError
  deriving DecidableEq, Repr

/-- `localStorage.getItem(key)`: throws, or yields the stored string, or `null`. -/
def Storage.getItem (st : Storage) (key : String) : Except Err (Option String) :=
  if st.getThrows then .error .storageError else .ok (st.items.lookup key)

/-- `localStorage.setItem(key, value)`: throws, or stores the value under the key. -/
def Storage.setItem (st : Storage) (key value : String) : Except Err Storage :=
  if st.setThrows then .error .storageError
  else .ok { st with items := (key, value) :: st.items.filter (fun kv => kv.1 != key) }

/-- The part of the page the theme helpers touch: the root `data-theme` attribute,
`localStorage`, and `window.matchMedia` (absent, or the `matches` flag of the
`(prefers-color-scheme: dark)` query). -/
structure Page where
  dataTheme : Option String
  storage : Storage
  matchMedia : Option Bool
  deriving DecidableEq, Repr

/-- Line 11-14: `setTheme(theme)`. The attribute is written first; the storage write is
wrapped in `try { ... } catch (e) {}`. -/
def setTheme (theme : String) (p : Page) : Except Err Page :=
  let p1 := { p with dataTheme := some theme }
  match p1.storage.setItem "nh-theme" theme with
  | .ok st => .ok { p1 with storage := st }
  | .error _ => .ok p1

/-- Line 15: `prefersDark()`, read for its truthiness:
`window.matchMedia && window.matchMedia(q).matches`. -/
def prefersDark (p : Page) : Bool :=
  match p.matchMedia with
  | none => false
  | some m => m

/-- Truthiness of the value returned by `getItem`: `null` and the empty string are falsy. -/
def truthy : Option String → Bool
  | none => false
  | some s => s != ""

/-- The body of the `try` block of `initTheme` (lines 18-20). `getItem` is its first
statement, so when it throws nothing has been written yet. -/
def initThemeTry (p : Page) : Except Err Page :=
  match p.storage.getItem "nh-theme" with
  | .error e => .error e
  | .ok saved =>
    let theme := if truthy saved then saved.getD "" else (if prefersDark p then "dark" else "light")
    setTheme theme p

/-- Line 16-22: `initTheme()`. -/
def initTheme (p : Page) : Except Err Page :=
  match initThemeTry p with
  | .ok p1 => .ok p1
  | .error _ => setTheme (if prefersDark p then "dark" else "light") p

/-- A reload with storage intact: a fresh document (no `data-theme` attribute yet) over
the same storage, under an OS preference signal that may differ. -/
def reload (p : Page) (mm : Option Bool) : Page :=
  { dataTheme := none, storage := p.storage, matchMedia := mm }

/-- A first page load with working, empty storage and an OS signal for light. -/
def pageStorageWorking : Page :=
  { dataTheme := none, storage := { items := [], getThrows := false, setThrows := false },
    matchMedia := some false }

/-- A first page load with storage disabled and an OS signal for dark. -/
def pageStorageDisabled : Page :=
  { dataTheme := none, storage := { items := [], getThrows := true, setThrows := true },
    matchMedia := some true }

/-- Line 38-41: the click handler of the injected dark-mode button. -/
def darkBtnClick (p : Page) : Except Err Page :=
  let next := if p.dataTheme = some "dark" then "light" else "dark"
  setTheme next p

/-! ## The helper object and its exposure on `window` -/

/-- The function values that end up stored in properties of the helper object. -/
inductive Fn where
  | toggleClass
  | setTheme
  | prefersDark
  | initTheme
  | originalToggle
  | wrappedToggle
  deriving DecidableEq, Repr

/-- A JavaScript object, as its own enumerable properties in insertion order. Two values
of this type held in different places are different objects: writing to one leaves
the other as it was. -/
abbrev Obj := List (String × Fn)

/-- Property assignment `o[key] = f`: overwrite in place, or append a new property. -/
def Obj.assign (o : Obj) (key : String) (f : Fn) : Obj :=
  if o.any (fun kv => kv.1 == key)
  then o.map (fun kv => if kv.1 == key then (key, f) else kv)
  else o ++ [(key, f)]

/-- Property read `o[key]`, `none` for `undefined`. -/
def Obj.get (o : Obj) (key : String) : Option Fn :=
  o.lookup key

/-- Whether the object offers a property of that name. -/
def Obj.offers (o : Obj) (key : String) : Bool :=
  (o.get key).isSome

/-- `Object.assign(target, source)`: copies the properties the source has at the time of
the call onto the target and returns the target. -/
def objectAssign (target source : Obj) : Obj :=
  source.foldl (fun t kv => t.assign kv.1 kv.2) target

/-- The two objects of the script: the closure-local `NH` and the object held in
`window.NoviceHall` (`none` while the window property is undefined). -/
structure Script where
  NH : Obj
  windowNoviceHall : Option Obj
  deriving DecidableEq, Repr

/-- Line 9-26: the synchronous part of the script. `NH` is built with its four methods and
`window.NoviceHall = Object.assign(window.NoviceHall || {}, NH)`; the argument is the
value of `window.NoviceHall` before the script runs. -/
def runScript (before : Option Obj) : Script :=
  let NH : Obj := [("toggleClass", .toggleClass), ("setTheme", .setTheme),
    ("prefersDark", .prefersDark), ("initTheme", .initTheme)]
  { NH := NH, windowNoviceHall := some (objectAssign (before.getD []) NH) }

/-- The assignments to the helper object made by the `DOMContentLoaded` handler: when the
page has the primary navigation, `NH.toggleNav = ...` at line 91 and again, wrapped,
at line 121. Nothing else in the handler writes to `NH` or to `window.NoviceHall`. -/
def domContentLoaded (hasNav : Bool) (s : Script) : Script :=
  if hasNav then
    { s with NH := (s.NH.assign "toggleNav" .originalToggle).assign "toggleNav" .wrappedToggle }
  else s

/-! ## Navigation controller -/

/-- What the document click handler asks of the event target. -/
structure Target where
  inNav : Bool
  isNavBtn : Bool
  deriving DecidableEq, Repr

/-- State read and written by the navigation handlers: the `data-open` and
`aria-expanded` attributes of the nav element, `document.body.style.overflow`, whether
the nav class list holds `nav-floating`, the closure variables `pinned` and `raf` of
`setupNavFloating`, and the browser side of `requestAnimationFrame`: the next handle
to hand out and the callbacks waiting for the next frame, each with the value of
`should` it captured. -/
structure Nav where
  dataOpen : String
  ariaExpanded : String
  bodyOverflow : String
  navFloating : Bool
  pinned : Bool
  raf : Option Nat
  nextHandle : Nat
  callbacks : List (Nat × Bool)
  deriving DecidableEq, Repr

/-- `String(b)` for a boolean. -/
def jsString (b : Bool) : String :=
  if b then "true" else "false"

/-- State right after the setup at lines 46-128 on a page whose nav element does not carry
`nav-floating` and whose body has no inline overflow. -/
def navInit : Nav :=
  { dataOpen := "false", ariaExpanded := "false", bodyOverflow := "", navFloating := false,
    pinned := false, raf := none, nextHandle := 1, callbacks := [] }

/-- Line 61-68: click handler of the injected toggle button. -/
def navBtnClick (s : Nav) : Nav :=
  let isOpen := decide (s.dataOpen = "true")
  let next := !isOpen
  { s with dataOpen := jsString next, ariaExpanded := jsString next,
           bodyOverflow := if next then "hidden" else "" }

/-- Line 73-79: document-level click handler. -/
def documentClick (t : Target) (s : Nav) : Nav :=
  if s.dataOpen ≠ "true" then s
  else if t.inNav || t.isNavBtn then s
  else { s with dataOpen := "false", ariaExpanded := "false", bodyOverflow := "" }

/-- Line 82-88: document-level keydown handler. -/
def documentKeydown (key : String) (s : Nav) : Nav :=
  if key = "Escape" ∧ s.dataOpen = "true" then
    { s with dataOpen := "false", ariaExpanded := "false", bodyOverflow := "" }
  else s

/-- Line 91-95: the first `NH.toggleNav`. The argument is `some b` when
`typeof on === 'boolean'`, and `none` for every other argument, `undefined` included. -/
def originalToggle (onArg : Option Bool) (s : Nav) : Nav :=
  let next := match onArg with
    | some b => b
    | none => decide (s.dataOpen ≠ "true")
  { s with dataOpen := jsString next, ariaExpanded := jsString next }

/-- Line 101-105: `setPinned(v)`. -/
def setPinned (v : Bool) (s : Nav) : Nav :=
  if s.pinned = v then s
  else { s with pinned := v, navFloating := v }

/-- `cancelAnimationFrame(h)`: drops the callback with that handle, if still waiting. -/
def cancelAnimationFrame (h : Nat) (s : Nav) : Nav :=
  { s with callbacks := s.callbacks.filter (fun c => c.1 != h) }

/-- `requestAnimationFrame(() => setPinned(should))`: queues the callback and returns a
fresh handle, which the caller stores in `raf`. -/
def requestAnimationFrame (should : Bool) (s : Nav) : Nav :=
  { s with raf := some s.nextHandle, nextHandle := s.nextHandle + 1,
           callbacks := s.callbacks ++ [(s.nextHandle, should)] }

/-- Line 107-114: document-level mousemove handler. `hover` is `nav.matches(':hover')`. -/
def documentMousemove (innerWidth clientY : Int) (hover : Bool) (s : Nav) : Nav :=
  if innerWidth < 640 then s
  else
    let should := decide (clientY ≤ 64) || hover
    if should ≠ s.pinned then
      let s1 := match s.raf with
        | some h => cancelAnimationFrame h s
        | none => s
      requestAnimationFrame should s1
    else s

/-- The browser runs the callbacks waiting for this frame, in the order requested. -/
def animationFrame (s : Nav) : Nav :=
  s.callbacks.foldl (fun st c => setPinned c.2 st) { s with callbacks := [] }

/-- Line 116: mouseenter on the nav element. -/
def navMouseenter (s : Nav) : Nav :=
  setPinned true s

/-- Line 117: mouseleave on the nav element. -/
def navMouseleave (s : Nav) : Nav :=
  if s.dataOpen ≠ "true" then setPinned false s else s

/-- Line 121-127: the final `NH.toggleNav`, wrapping the first one. -/
def toggleNav (onArg : Option Bool) (s : Nav) : Nav :=
  let s1 := originalToggle onArg s
  let s2 := match onArg with
    | some b => { s1 with navFloating := b }
    | none => s1
  let isOpen := decide (s2.dataOpen = "true")
  { s2 with bodyOverflow := if isOpen then "hidden" else "" }

/-- A click on the injected toggle button: the button listener runs first, then the event
bubbles to the document listener with the button as target. `btnInNav` is what
`nav.contains(navBtn)` gives on the page. -/
def clickNavBtn (btnInNav : Bool) (s : Nav) : Nav :=
  documentClick { inNav := btnInNav, isNavBtn := true } (navBtnClick s)

/-- The two ways of toggling the navigation. -/
inductive Toggle where
  | click (btnInNav : Bool)
  | call
  deriving DecidableEq, Repr

/-- Effect of one toggle. -/
def Toggle.apply : Toggle → Nav → Nav
  | .click btnInNav, s => clickNavBtn btnInNav s
  | .call, s => toggleNav none s

/-- Events that drive the floating controller. -/
inductive FloatEvent where
  | mousemove (innerWidth clientY : Int) (hover : Bool)
  | mouseenter
  | mouseleave
  | frame
  | toggleNav (onArg : Option Bool)
  deriving DecidableEq, Repr

/-- One event handled. -/
def FloatEvent.step (s : Nav) : FloatEvent → Nav
  | .mousemove w y hover => documentMousemove w y hover s
  | .mouseenter => navMouseenter s
  | .mouseleave => navMouseleave s
  | .frame => animationFrame s
  | .toggleNav onArg => NoviceHall.toggleNav onArg s

/-- Events handled in order. -/
def floatRun (s : Nav) (es : List FloatEvent) : Nav :=
  es.foldl FloatEvent.step s

/-! ## Header scroll-collapse controller -/

/-- Closure variables of `setupScrollCollapse` (`last`, `ticking`, `collapsed`,
`lastToggle`) and whether the header class list holds `header-collapsed`. -/
structure Scroll where
  last : Int
  ticking : Bool
  collapsed : Bool
  lastToggle : Int
  headerCollapsed : Bool
  deriving DecidableEq, Repr

/-- Line 141. -/
def TOGGLE_LOCK : Int := 260

/-- Line 142. -/
def MIN_DELTA : Int := 24

/-- Line 144-168: `update()`, with `current` the value of `window.scrollY || 0` and `now`
the value of `Date.now()` it reads. -/
def update (s : Scroll) (current now : Int) : Scroll :=
  let delta := current - s.last
  if (delta.natAbs : Int) < MIN_DELTA then { s with last := current, ticking := false }
  else if current > 120 ∧ delta > 0 ∧ s.collapsed = false ∧ now - s.lastToggle > TOGGLE_LOCK then
    { s with headerCollapsed := true, collapsed := true, lastToggle := now,
             last := current, ticking := false }
  else if ((current < 80 ∧ delta < 0 ∧ s.collapsed = true) ∨ current ≤ 40)
      ∧ now - s.lastToggle > TOGGLE_LOCK then
    { s with headerCollapsed := false, collapsed := false, lastToggle := now,
             last := current, ticking := false }
  else { s with last := current, ticking := false }

/-- Line 170-172: the scroll listener; the requested frame callback is `update`. -/
def onScroll (s : Scroll) : Scroll :=
  if s.ticking = false then { s with ticking := true } else s

/-- Controller state at setup on a page loaded at offset 0 whose header does not carry
`header-collapsed`. -/
def scrollInit : Scroll :=
  { last := 0, ticking := false, collapsed := false, lastToggle := 0, headerCollapsed := false }

/-- Successive `update` steps, each given as `(current, now)`. -/
def scrollRun (s : Scroll) (steps : List (Int × Int)) : Scroll :=
  steps.foldl (fun st c => update st c.1 c.2) s

/-- The timestamps of the steps at which `collapsed` changes, in order. -/
def changeTimes (s : Scroll) : List (Int × Int) → List Int
  | [] => []
  | (current, now) :: rest =>
    let s1 := update s current now
    if s1.collapsed ≠ s.collapsed then now :: changeTimes s1 rest else changeTimes s1 rest

end NoviceHall

namespace NoviceHall

/-! ## Theme helpers: results -/

/-- `setTheme` never throws, and leaves the root attribute equal to its argument. -/
theorem setTheme_ok (theme : String) (p : Page) :
    ∃ p1, setTheme theme p = .ok p1 ∧ p1.dataTheme = some theme ∧
      p1.matchMedia = p.matchMedia := by
  cases h : Storage.setItem p.storage "nh-theme" theme with
  | ok st =>
    exact ⟨{ dataTheme := some theme, storage := st, matchMedia := p.matchMedia },
      by simp [setTheme, h], rfl, rfl⟩
  | error e =>
    exact ⟨{ p with dataTheme := some theme }, by simp [setTheme, h], rfl, rfl⟩

/-- `initTheme` never throws, whatever the storage does. -/
theorem initTheme_ok (p : Page) : ∃ p1, initTheme p = .ok p1 := by
  unfold initTheme
  cases h : initThemeTry p with
  | ok p1 => exact ⟨p1, rfl⟩
  | error e =>
    obtain ⟨p1, h1, _⟩ := setTheme_ok (if prefersDark p then "dark" else "light") p
    exact ⟨p1, h1⟩

/-- On a storage that accepts writes, `setTheme` stores its argument under `nh-theme`. -/
theorem setTheme_stores (theme : String) (p : Page) (hset : p.storage.setThrows = false) :
    ∃ p1, setTheme theme p = .ok p1 ∧ p1.storage.items.lookup "nh-theme" = some theme ∧
      p1.storage.getThrows = p.storage.getThrows ∧
      p1.storage.setThrows = p.storage.setThrows := by
  refine ⟨{ dataTheme := some theme,
            storage := { p.storage with
              items := ("nh-theme", theme) :: p.storage.items.filter (fun kv => kv.1 != "nh-theme") },
            matchMedia := p.matchMedia }, ?_, ?_, rfl, rfl⟩
  · simp [setTheme, Storage.setItem, hset]
  · simp [List.lookup]

/-- C2: for `v` one of `light`, `dark` and a storage that accepts reads and writes,
`setTheme(v)` succeeds, and `initTheme()` on a fresh document over the storage it left
succeeds and sets the root `data-theme` attribute to `v`, whatever the OS dark-mode
signal `mm` is at reload. -/
theorem theme_round_trip (v : String) (p : Page) (mm : Option Bool)
    (hv : v = "light" ∨ v = "dark")
    (hget : p.storage.getThrows = false) (hset : p.storage.setThrows = false) :
    ∃ p1 p2, setTheme v p = .ok p1 ∧ initTheme (reload p1 mm) = .ok p2 ∧
      p2.dataTheme = some v := by
  obtain ⟨p1, h1, hlook, hg, _⟩ := setTheme_stores v p hset
  have htruthy : truthy (some v) = true := by
    rcases hv with rfl | rfl <;> decide
  have htry : initThemeTry (reload p1 mm) = setTheme v (reload p1 mm) := by
    simp [initThemeTry, Storage.getItem, reload, hg, hget, hlook, htruthy]
  obtain ⟨p2, h2, hattr, _⟩ := setTheme_ok v (reload p1 mm)
  refine ⟨p1, p2, h1, ?_, hattr⟩
  simp [initTheme, htry, h2]

/-- Witness for C2: `dark` is saved on a page whose OS signal is light and survives a
reload under a light OS signal. -/
theorem theme_round_trip_witness :
    ∃ p1 p2, setTheme "dark" pageStorageWorking = .ok p1 ∧
      initTheme (reload p1 (some false)) = .ok p2 ∧ p2.dataTheme = some "dark" :=
  theme_round_trip "dark" pageStorageWorking (some false) (Or.inr rfl) rfl rfl

/-- C3: when `getItem` and `setItem` both throw, `initTheme()` returns normally and the
root `data-theme` attribute is `dark` if `prefersDark()` holds and `light` otherwise;
so it is one of the two theme values. -/
theorem initTheme_storage_failure (p : Page)
    (hget : p.storage.getThrows = true) (hset : p.storage.setThrows = true) :
    ∃ p1, initTheme p = .ok p1 ∧
      p1.dataTheme = some (if prefersDark p then "dark" else "light") ∧
      (p1.dataTheme = some "dark" ∨ p1.dataTheme = some "light") := by
  refine ⟨{ p with dataTheme := some (if prefersDark p then "dark" else "light") }, ?_, rfl, ?_⟩
  · simp [initTheme, initThemeTry, Storage.getItem, hget, setTheme, Storage.setItem, hset]
  · cases prefersDark p <;> simp

/-- Witness for C3: a page with storage disabled and an OS signal for dark. -/
theorem initTheme_storage_failure_witness :
    ∃ p1, initTheme pageStorageDisabled = .ok p1 ∧
      p1.dataTheme = some (if prefersDark pageStorageDisabled then "dark" else "light") ∧
      (p1.dataTheme = some "dark" ∨ p1.dataTheme = some "light") :=
  initTheme_storage_failure pageStorageDisabled rfl rfl

/-! ## Exposure on `window`: results -/

/-- Whether a property is offered, as a search for its name. -/
theorem Obj.offers_eq_any (o : Obj) (k : String) :
    o.offers k = o.any (fun kv => kv.1 == k) := by
  induction o with
  | nil => rfl
  | cons kv o ih =>
    obtain ⟨a, g⟩ := kv
    by_cases h : a = k
    · subst h
      simp [Obj.offers, Obj.get, List.lookup]
    · have h2 : (k == a) = false := by simpa using fun h3 => h h3.symm
      simp only [Obj.offers, Obj.get] at ih
      simp [Obj.offers, Obj.get, List.lookup, h2, h, ih]

/-- Assigning a property makes it offered and leaves the other names as they were. -/
theorem Obj.offers_assign (o : Obj) (key : String) (f : Fn) (k : String) :
    (o.assign key f).offers k = (o.offers k || (key == k)) := by
  rw [Obj.offers_eq_any, Obj.offers_eq_any]
  unfold Obj.assign
  by_cases hany : o.any (fun kv => kv.1 == key) = true
  · rw [if_pos hany]
    by_cases hk : key = k
    · subst hk
      simp only [hany, beq_self_eq_true, Bool.or_true]
      obtain ⟨kv, hmem, hkv⟩ := List.any_eq_true.mp hany
      exact List.any_eq_true.mpr ⟨_, List.mem_map_of_mem _ hmem, by simp [hkv]⟩
    · have hk2 : (key == k) = false := by simpa using hk
      rw [hk2, Bool.or_false, List.any_map]
      congr 1
      funext kv
      by_cases h1 : kv.1 = key
      · simp [h1]
      · simp [h1]
  · rw [if_neg hany]
    simp

/-- Whatever `window.NoviceHall` held before the script ran, after `DOMContentLoaded` the
window object offers `toggleNav` exactly when it already did before. -/
theorem window_toggleNav_unchanged (before : Option Obj) (hasNav : Bool) :
    ((domContentLoaded hasNav (runScript before)).windowNoviceHall.getD []).offers "toggleNav"
      = (before.getD []).offers "toggleNav" := by
  have h : (domContentLoaded hasNav (runScript before)).windowNoviceHall
      = (runScript before).windowNoviceHall := by
    unfold domContentLoaded
    split <;> rfl
  rw [h]
  simp only [runScript, objectAssign, List.foldl, Option.getD_some, Obj.offers_assign]
  simp

/-- C4: on a page with the primary navigation and no earlier `window.NoviceHall`, after the
script has run and `DOMContentLoaded` has been handled the closure-local `NH` offers
`toggleNav`, and the object held in `window.NoviceHall` offers `setTheme`, `initTheme`,
`prefersDark` and `toggleClass` but does not offer `toggleNav`. -/
theorem window_lacks_toggleNav :
    ((domContentLoaded true (runScript none)).NH.offers "toggleNav" = true) ∧
    ∃ w, (domContentLoaded true (runScript none)).windowNoviceHall = some w ∧
      w.offers "setTheme" = true ∧ w.offers "initTheme" = true ∧
      w.offers "prefersDark" = true ∧ w.offers "toggleClass" = true ∧
      w.offers "toggleNav" = false := by
  refine ⟨by decide, _, rfl, ?_, ?_, ?_, ?_, ?_⟩ <;> decide

/-! ## Navigation controller: results -/

/-- A click on the toggle button flips the navigation: closed becomes open with the body
scroll locked, open becomes closed with the lock released. -/
theorem clickNavBtn_flips (btnInNav : Bool) (s : Nav) :
    (s.dataOpen ≠ "true" →
      (clickNavBtn btnInNav s).dataOpen = "true" ∧
      (clickNavBtn btnInNav s).ariaExpanded = "true" ∧
      (clickNavBtn btnInNav s).bodyOverflow = "hidden") ∧
    (s.dataOpen = "true" →
      (clickNavBtn btnInNav s).dataOpen = "false" ∧
      (clickNavBtn btnInNav s).ariaExpanded = "false" ∧
      (clickNavBtn btnInNav s).bodyOverflow = "") := by
  constructor
  · intro h
    simp [clickNavBtn, navBtnClick, documentClick, jsString, h]
  · intro h
    simp [clickNavBtn, navBtnClick, documentClick, jsString, h]

/-- A call of the final `NH.toggleNav` with no boolean argument flips the navigation in the
same way. -/
theorem toggleNav_none_flips (s : Nav) :
    (s.dataOpen ≠ "true" →
      (toggleNav none s).dataOpen = "true" ∧
      (toggleNav none s).ariaExpanded = "true" ∧
      (toggleNav none s).bodyOverflow = "hidden") ∧
    (s.dataOpen = "true" →
      (toggleNav none s).dataOpen = "false" ∧
      (toggleNav none s).ariaExpanded = "false" ∧
      (toggleNav none s).bodyOverflow = "") := by
  constructor
  · intro h
    simp [toggleNav, originalToggle, jsString, h]
  · intro h
    simp [toggleNav, originalToggle, jsString, h]

/-- Either kind of toggle flips the navigation. -/
theorem Toggle.apply_flips (t : Toggle) (s : Nav) :
    (s.dataOpen ≠ "true" →
      (t.apply s).dataOpen = "true" ∧ (t.apply s).ariaExpanded = "true" ∧
      (t.apply s).bodyOverflow = "hidden") ∧
    (s.dataOpen = "true" →
      (t.apply s).dataOpen = "false" ∧ (t.apply s).ariaExpanded = "false" ∧
      (t.apply s).bodyOverflow = "") := by
  cases t with
  | click b => exact clickNavBtn_flips b s
  | call => exact toggleNav_none_flips s

/-- C5: from a closed navigation (`data-open` is not `true`, as after setup where it is
`false`), whatever the body overflow is (in particular with no scroll lock), one
toggle of either kind (a click on the injected button, handled by the button listener
and then the document listener, or `NH.toggleNav()` with no argument) leaves
`data-open = true`, `aria-expanded = true` and body overflow `hidden`; a second toggle
of either kind leaves `data-open = false`, `aria-expanded = false` and body overflow
empty. -/
theorem toggle_open_then_close (s : Nav) (t1 t2 : Toggle) (hclosed : s.dataOpen ≠ "true") :
    ((t1.apply s).dataOpen = "true" ∧ (t1.apply s).ariaExpanded = "true" ∧
      (t1.apply s).bodyOverflow = "hidden") ∧
    ((t2.apply (t1.apply s)).dataOpen = "false" ∧
      (t2.apply (t1.apply s)).ariaExpanded = "false" ∧
      (t2.apply (t1.apply s)).bodyOverflow = "") := by
  have h1 := (Toggle.apply_flips t1 s).1 hclosed
  exact ⟨h1, (Toggle.apply_flips t2 (t1.apply s)).2 h1.1⟩

/-- Witness for C5: right after setup, a click on the button and then a call of
`NH.toggleNav()`. -/
theorem toggle_open_then_close_witness :
    navInit.dataOpen ≠ "true" ∧
    (((Toggle.click false).apply navInit).dataOpen = "true" ∧
      ((Toggle.click false).apply navInit).ariaExpanded = "true" ∧
      ((Toggle.click false).apply navInit).bodyOverflow = "hidden") ∧
    ((Toggle.call.apply ((Toggle.click false).apply navInit)).dataOpen = "false" ∧
      (Toggle.call.apply ((Toggle.click false).apply navInit)).ariaExpanded = "false" ∧
      (Toggle.call.apply ((Toggle.click false).apply navInit)).bodyOverflow = "") :=
  ⟨by decide, toggle_open_then_close navInit (Toggle.click false) Toggle.call (by decide)⟩

/-- C6: while the navigation is open, the document click handler closes it
(`data-open = false`, `aria-expanded = false`, body overflow empty) for every target
that is neither contained in the nav element nor the toggle button, and leaves the
whole state, so the open navigation and the scroll lock, as it was for every target
contained in the nav element. -/
theorem outside_click_closes (s : Nav) (t : Target) (hopen : s.dataOpen = "true") :
    (t.inNav = false ∧ t.isNavBtn = false →
      (documentClick t s).dataOpen = "false" ∧
      (documentClick t s).ariaExpanded = "false" ∧
      (documentClick t s).bodyOverflow = "") ∧
    (t.inNav = true →
      documentClick t s = s ∧ (documentClick t s).dataOpen = "true" ∧
      (documentClick t s).bodyOverflow = s.bodyOverflow) := by
  constructor
  · rintro ⟨h1, h2⟩
    simp [documentClick, hopen, h1, h2]
  · intro h1
    simp [documentClick, hopen, h1]

/-- Witness for C6: the navigation opened by a click on the button, then a click on the
page outside, and a click inside the nav. -/
theorem outside_click_closes_witness :
    (clickNavBtn false navInit).dataOpen = "true" ∧
    ((documentClick { inNav := false, isNavBtn := false } (clickNavBtn false navInit)).dataOpen
        = "false" ∧
      (documentClick { inNav := false, isNavBtn := false }
        (clickNavBtn false navInit)).ariaExpanded = "false" ∧
      (documentClick { inNav := false, isNavBtn := false }
        (clickNavBtn false navInit)).bodyOverflow = "") ∧
    (documentClick { inNav := true, isNavBtn := false } (clickNavBtn false navInit)
        = clickNavBtn false navInit ∧
      (documentClick { inNav := true, isNavBtn := false } (clickNavBtn false navInit)).dataOpen
        = "true" ∧
      (documentClick { inNav := true, isNavBtn := false }
        (clickNavBtn false navInit)).bodyOverflow = (clickNavBtn false navInit).bodyOverflow) :=
  ⟨by decide,
   (outside_click_closes (clickNavBtn false navInit) { inNav := false, isNavBtn := false }
      (by decide)).1 ⟨rfl, rfl⟩,
   (outside_click_closes (clickNavBtn false navInit) { inNav := true, isNavBtn := false }
      (by decide)).2 rfl⟩

/-- C7: the keydown handler, on `Escape` while the navigation is open, sets
`data-open = false`, `aria-expanded = false` and body overflow empty; on `Escape`
while it is closed, and on every other key in either state, it leaves the state
unchanged. -/
theorem escape_closes (s : Nav) (key : String) :
    (key = "Escape" ∧ s.dataOpen = "true" →
      (documentKeydown key s).dataOpen = "false" ∧
      (documentKeydown key s).ariaExpanded = "false" ∧
      (documentKeydown key s).bodyOverflow = "") ∧
    (key = "Escape" ∧ s.dataOpen ≠ "true" → documentKeydown key s = s) ∧
    (key ≠ "Escape" → documentKeydown key s = s) := by
  refine ⟨?_, ?_, ?_⟩
  · rintro ⟨h1, h2⟩
    simp [documentKeydown, h1, h2]
  · rintro ⟨h1, h2⟩
    simp [documentKeydown, h1, h2]
  · intro h1
    simp [documentKeydown, h1]

/-- Witness for C7: `Escape` on the navigation opened by a click, `Escape` right after
setup, and `Enter` on the open navigation. -/
theorem escape_closes_witness :
    (clickNavBtn false navInit).dataOpen = "true" ∧
    ((documentKeydown "Escape" (clickNavBtn false navInit)).dataOpen = "false" ∧
      (documentKeydown "Escape" (clickNavBtn false navInit)).ariaExpanded = "false" ∧
      (documentKeydown "Escape" (clickNavBtn false navInit)).bodyOverflow = "") ∧
    (navInit.dataOpen ≠ "true" ∧ documentKeydown "Escape" navInit = navInit) ∧
    ("Enter" ≠ "Escape" ∧
      documentKeydown "Enter" (clickNavBtn false navInit) = clickNavBtn false navInit) :=
  ⟨by decide,
   (escape_closes (clickNavBtn false navInit) "Escape").1 ⟨rfl, by decide⟩,
   ⟨by decide, (escape_closes navInit "Escape").2.1 ⟨rfl, by decide⟩⟩,
   ⟨by decide, (escape_closes (clickNavBtn false navInit) "Enter").2.2 (by decide)⟩⟩

/-! ## Floating sub-state: results -/

/-- On a viewport narrower than 640 the mousemove handler changes nothing: no class, no
closure variable, no frame request. -/
theorem documentMousemove_narrow (innerWidth clientY : Int) (hover : Bool) (s : Nav)
    (hw : innerWidth < 640) : documentMousemove innerWidth clientY hover s = s := by
  simp [documentMousemove, hw]

/-- `setPinned` keeps the class in place whenever `pinned` is set, once that holds. -/
theorem setPinned_keeps (v : Bool) (s : Nav) (h : s.pinned = true → s.navFloating = true) :
    (setPinned v s).pinned = true → (setPinned v s).navFloating = true := by
  unfold setPinned
  split
  · exact h
  · intro hv
    exact hv

/-- Running queued callbacks keeps the class in place whenever `pinned` is set. -/
theorem callbacks_keep (cs : List (Nat × Bool)) (s : Nav)
    (h : s.pinned = true → s.navFloating = true) :
    (cs.foldl (fun st c => setPinned c.2 st) s).pinned = true →
      (cs.foldl (fun st c => setPinned c.2 st) s).navFloating = true := by
  induction cs generalizing s with
  | nil => exact h
  | cons c cs ih => exact ih (setPinned c.2 s) (setPinned_keeps c.2 s h)

/-- What the code does guarantee on a wide viewport: from a state where `pinned` is false,
a mousemove with `clientY ≤ 64` followed by the next frame leaves the class set. -/
theorem mousemove_top_pins_from_unpinned (innerWidth clientY : Int) (hover : Bool) (s : Nav)
    (hw : 640 ≤ innerWidth) (hy : clientY ≤ 64) (hp : s.pinned = false) :
    (animationFrame (documentMousemove innerWidth clientY hover s)).navFloating = true := by
  have hnw : ¬ innerWidth < 640 := not_lt.mpr hw
  have key : ∀ s1 : Nav, s1.pinned = false →
      (animationFrame (requestAnimationFrame true s1)).navFloating = true := by
    intro s1 h1
    simp only [animationFrame, requestAnimationFrame, List.foldl_append, List.foldl_cons,
      List.foldl_nil]
    generalize hr : (List.foldl (fun st c => setPinned c.2 st) _ s1.callbacks) = r
    have hinv : r.pinned = true → r.navFloating = true := by
      rw [← hr]
      apply callbacks_keep
      simp [h1]
    unfold setPinned
    split
    · next h2 => exact hinv h2
    · rfl
  simp only [documentMousemove, hnw, if_false, hy, decide_True, Bool.true_or, hp]
  cases hraf : s.raf with
  | none => simpa using key s hp
  | some h => simpa using key (cancelAnimationFrame h s) hp

/-- The second way the class and `pinned` come apart: `NH.toggleNav(false)` removes the
class without resetting `pinned`, after which a mousemove at the top requests no frame
and the class stays off. -/
theorem toggleNav_false_desyncs :
    (floatRun navInit [.mouseenter, .toggleNav (some false),
      .mousemove 1024 10 false, .frame]).navFloating = false := by
  decide

/-- C8: on a 1024 wide viewport, after the pointer has been at the top (mousemove at
`clientY = 10`, frame) and then moved to `clientY = 65`, the class is set and a frame
callback that unpins is waiting; a mousemove with `clientY = 64` requests nothing and
cancels nothing, since `should` equals `pinned`, and the next animation frame then
removes the `nav-floating` class. -/
theorem stale_frame_unpins_at_top :
    (floatRun navInit [.mousemove 1024 10 false, .frame,
      .mousemove 1024 65 false]).navFloating = true ∧
    (floatRun navInit [.mousemove 1024 10 false, .frame,
      .mousemove 1024 65 false]).callbacks = [(2, false)] ∧
    (animationFrame (documentMousemove 1024 64 false
      (floatRun navInit [.mousemove 1024 10 false, .frame,
        .mousemove 1024 65 false]))).navFloating = false := by
  decide

/-- C10, as stated, fails: right after setup a click on the toggle button opens the
navigation and leaves the nav element without `nav-floating`, and so does
`NH.toggleNav()` with no argument. -/
theorem opening_without_floating :
    navInit.dataOpen ≠ "true" ∧
    (clickNavBtn false navInit).dataOpen = "true" ∧
    (clickNavBtn false navInit).navFloating = false ∧
    (toggleNav none navInit).dataOpen = "true" ∧
    (toggleNav none navInit).navFloating = false := by
  decide

/-- C10, amended: `NH.toggleNav(true)` opens the navigation and leaves the nav element with
the `nav-floating` class set; a click on the injected toggle button and
`NH.toggleNav()` with no argument leave the `nav-floating` class as it was. -/
theorem toggleNav_true_forces_floating (s : Nav) (btnInNav : Bool) :
    ((toggleNav (some true) s).dataOpen = "true" ∧
      (toggleNav (some true) s).navFloating = true) ∧
    (clickNavBtn btnInNav s).navFloating = s.navFloating ∧
    (toggleNav none s).navFloating = s.navFloating := by
  refine ⟨⟨?_, ?_⟩, ?_, ?_⟩
  · simp [toggleNav, originalToggle, jsString]
  · simp [toggleNav, originalToggle]
  · simp only [clickNavBtn, navBtnClick, documentClick]
    split_ifs <;> rfl
  · simp [toggleNav, originalToggle]

/-! ## Header scroll-collapse: results -/

/-- Each `update` step either leaves `collapsed`, the header class and `lastToggle` as
they were, or happens more than the lock interval after `lastToggle` and moves
`lastToggle` to its own timestamp. -/
theorem update_cases (s : Scroll) (current now : Int) :
    ((update s current now).collapsed = s.collapsed ∧
      (update s current now).headerCollapsed = s.headerCollapsed ∧
      (update s current now).lastToggle = s.lastToggle) ∨
    (now - s.lastToggle > 260 ∧ (update s current now).lastToggle = now) := by
  unfold update
  simp only [TOGGLE_LOCK]
  split_ifs with h1 h2 h3
  · exact Or.inl ⟨rfl, rfl, rfl⟩
  · exact Or.inr ⟨h2.2.2.2, rfl⟩
  · exact Or.inr ⟨h3.2, rfl⟩
  · exact Or.inl ⟨rfl, rfl, rfl⟩

/-- Within the lock interval a step changes neither `collapsed`, nor the header class, nor
`lastToggle`. -/
theorem update_locked (s : Scroll) (current now : Int) (hlock : now - s.lastToggle ≤ 260) :
    (update s current now).collapsed = s.collapsed ∧
    (update s current now).headerCollapsed = s.headerCollapsed ∧
    (update s current now).lastToggle = s.lastToggle := by
  rcases update_cases s current now with h | h
  · exact h
  · omega

/-- Along any run, every change of `collapsed` comes more than the lock interval after the
`lastToggle` the run started with, and the changes are pairwise more than the lock
interval apart. -/
theorem changeTimes_spaced (steps : List (Int × Int)) (s : Scroll) :
    (∀ t ∈ changeTimes s steps, t - s.lastToggle > 260) ∧
    (changeTimes s steps).Pairwise (fun t1 t2 => t2 - t1 > 260) := by
  induction steps generalizing s with
  | nil => simp [changeTimes]
  | cons c rest ih =>
    obtain ⟨current, now⟩ := c
    obtain ⟨ih1, ih2⟩ := ih (update s current now)
    simp only [changeTimes]
    rcases update_cases s current now with ⟨hc, _, hl⟩ | ⟨hgt, hl⟩
    · rw [if_neg (by simp [hc])]
      rw [hl] at ih1
      exact ⟨ih1, ih2⟩
    · rw [hl] at ih1
      have hrest : ∀ t ∈ changeTimes (update s current now) rest, t - s.lastToggle > 260 := by
        intro t ht
        have := ih1 t ht
        omega
      split_ifs
      · refine ⟨?_, List.pairwise_cons.mpr ⟨ih1, ih2⟩⟩
        intro t ht
        rcases List.mem_cons.mp ht with rfl | ht
        · exact hgt
        · exact hrest t ht
      · exact ⟨hrest, ih2⟩

/-- While every step stays within the lock interval of `lastToggle`, a run changes
neither `collapsed` nor the header class, however many steps it has. -/
theorem scrollRun_locked (steps : List (Int × Int)) (s : Scroll)
    (hlock : ∀ c ∈ steps, c.2 - s.lastToggle ≤ 260) :
    (scrollRun s steps).collapsed = s.collapsed ∧
    (scrollRun s steps).headerCollapsed = s.headerCollapsed ∧
    changeTimes s steps = [] := by
  induction steps generalizing s with
  | nil => exact ⟨rfl, rfl, rfl⟩
  | cons c rest ih =>
    obtain ⟨h1, h2, h3⟩ := update_locked s c.1 c.2 (hlock c (List.mem_cons_self _ _))
    have hrest : ∀ d ∈ rest, d.2 - (update s c.1 c.2).lastToggle ≤ 260 := by
      intro d hd
      rw [h3]
      exact hlock d (List.mem_cons_of_mem _ hd)
    obtain ⟨i1, i2, i3⟩ := ih (update s c.1 c.2) hrest
    refine ⟨?_, ?_, ?_⟩
    · simpa [scrollRun, h1] using i1
    · simpa [scrollRun, h2] using i2
    · obtain ⟨current, now⟩ := c
      simp only [changeTimes]
      rw [if_neg (by simp [h1])]
      exact i3

/-- The first qualifying downward scroll collapses the header, with `lastToggle` moved to
its timestamp. -/
theorem update_first_collapse (s0 : Scroll) (current now : Int)
    (hcol : s0.collapsed = false) (htog : s0.lastToggle = 0)
    (hcur : current > 120) (hdelta : current - s0.last ≥ 24) (hnow : now > 260) :
    (update s0 current now).collapsed = true ∧
    (update s0 current now).headerCollapsed = true ∧
    (update s0 current now).lastToggle = now := by
  have h1 : ¬ ((current - s0.last).natAbs : Int) < MIN_DELTA := by
    simp only [MIN_DELTA]
    omega
  have h2 : current > 120 ∧ current - s0.last > 0 ∧ s0.collapsed = false ∧
      now - s0.lastToggle > TOGGLE_LOCK := by
    simp only [TOGGLE_LOCK]
    refine ⟨hcur, ?_, hcol, ?_⟩ <;> omega
  simp only [update, if_neg h1, if_pos h2, and_self]

/-- The header collapses exactly once, however many scroll steps follow the first
qualifying one within the lock interval. -/
theorem collapses_once_within_lock (s0 : Scroll) (current now : Int)
    (later : List (Int × Int))
    (hcol : s0.collapsed = false) (htog : s0.lastToggle = 0)
    (hcur : current > 120) (hdelta : current - s0.last ≥ 24) (hnow : now > 260)
    (hwithin : ∀ c ∈ later, c.2 - now ≤ 260) :
    changeTimes s0 ((current, now) :: later) = [now] ∧
    (scrollRun s0 ((current, now) :: later)).collapsed = true ∧
    (scrollRun s0 ((current, now) :: later)).headerCollapsed = true := by
  obtain ⟨h1, h2, h3⟩ := update_first_collapse s0 current now hcol htog hcur hdelta hnow
  obtain ⟨i1, i2, i3⟩ := scrollRun_locked later (update s0 current now)
    (by rw [h3]; exact hwithin)
  refine ⟨?_, ?_, ?_⟩
  · simp only [changeTimes]
    rw [if_pos (by simp [h1, hcol]), i3]
  · simpa [scrollRun, h1] using i1
  · simpa [scrollRun, h2] using i2

/-- C1: from the initial state (`collapsed = false`, `lastToggle = 0`, and `last = 0` or
whatever offset the page was loaded at), a first step with `current > 120`,
`current - last ≥ 24` and `now > 260` sets `collapsed` and adds `header-collapsed`;
after it and any further steps `mid`, a step whose `now - lastToggle ≤ 260` leaves
`collapsed` and the header class unchanged; and over the whole run the changes of
`collapsed` are pairwise more than 260 ms apart. This holds for every sequence of
steps, those with non-decreasing timestamps among them. -/
theorem scroll_collapse_rate_limit (s0 : Scroll) (current now : Int)
    (later : List (Int × Int))
    (hcol : s0.collapsed = false) (htog : s0.lastToggle = 0)
    (hcur : current > 120) (hdelta : current - s0.last ≥ 24) (hnow : now > 260) :
    ((update s0 current now).collapsed = true ∧
      (update s0 current now).headerCollapsed = true) ∧
    (∀ (mid : List (Int × Int)) (c t : Int),
      t - (scrollRun (update s0 current now) mid).lastToggle ≤ 260 →
      (update (scrollRun (update s0 current now) mid) c t).collapsed
        = (scrollRun (update s0 current now) mid).collapsed ∧
      (update (scrollRun (update s0 current now) mid) c t).headerCollapsed
        = (scrollRun (update s0 current now) mid).headerCollapsed) ∧
    (changeTimes s0 ((current, now) :: later)).Pairwise (fun t1 t2 => t2 - t1 > 260) := by
  refine ⟨?_, ?_, (changeTimes_spaced _ s0).2⟩
  · obtain ⟨h1, h2, _⟩ := update_first_collapse s0 current now hcol htog hcur hdelta hnow
    exact ⟨h1, h2⟩
  · intro mid c t hlock
    obtain ⟨h1, h2, _⟩ := update_locked (scrollRun (update s0 current now) mid) c t hlock
    exact ⟨h1, h2⟩

/-- Witness for C1: the page is scrolled to 600 at time 300, then to 700 at time 400 and
back to 30 at time 1000. -/
theorem scroll_collapse_rate_limit_witness :
    ((update scrollInit 600 300).collapsed = true ∧
      (update scrollInit 600 300).headerCollapsed = true) ∧
    (∀ (mid : List (Int × Int)) (c t : Int),
      t - (scrollRun (update scrollInit 600 300) mid).lastToggle ≤ 260 →
      (update (scrollRun (update scrollInit 600 300) mid) c t).collapsed
        = (scrollRun (update scrollInit 600 300) mid).collapsed ∧
      (update (scrollRun (update scrollInit 600 300) mid) c t).headerCollapsed
        = (scrollRun (update scrollInit 600 300) mid).headerCollapsed) ∧
    (changeTimes scrollInit ((600, 300) :: [(700, 400), (30, 1000)])).Pairwise
      (fun t1 t2 => t2 - t1 > 260) :=
  scroll_collapse_rate_limit scrollInit 600 300 [(700, 400), (30, 1000)]
    rfl rfl (by decide) (by decide) (by decide)

/-- C9, as stated, fails. After the header has collapsed at offset 600, an upward scroll to
500 (delta -100) long after the lock interval leaves it collapsed; and after scrolling
up to 60 in steps, a step to offset 40 with delta -20, long after the lock interval,
leaves it collapsed too. -/
theorem scroll_up_stays_collapsed :
    ((update scrollInit 600 300).collapsed = true ∧
      (500 : Int) - (update scrollInit 600 300).last ≤ -24 ∧
      (1000 : Int) - (update scrollInit 600 300).lastToggle > 260 ∧
      (update (update scrollInit 600 300) 500 1000).collapsed = true ∧
      (update (update scrollInit 600 300) 500 1000).headerCollapsed = true) ∧
    ((scrollRun scrollInit [(600, 300), (100, 310), (80, 320), (60, 330)]).collapsed = true ∧
      (40 : Int) ≤ 40 ∧
      (1000 : Int)
        - (scrollRun scrollInit [(600, 300), (100, 310), (80, 320), (60, 330)]).lastToggle
        > 260 ∧
      (update (scrollRun scrollInit [(600, 300), (100, 310), (80, 320), (60, 330)])
        40 1000).collapsed = true ∧
      (update (scrollRun scrollInit [(600, 300), (100, 310), (80, 320), (60, 330)])
        40 1000).headerCollapsed = true) := by
  decide

/-- C9, amended: for every state with `collapsed = true`, an update step taken after the
lock interval has elapsed (`now - lastToggle > 260`) removes `header-collapsed` and
sets `collapsed = false` when it is an upward scroll (`current - last ≤ -24`) to an
offset `current < 80`, and likewise when `current ≤ 40` and the step is not a small
one (`|current - last| ≥ 24`). -/
theorem expand_on_scroll_up_near_top (s : Scroll) (current now : Int)
    (hcol : s.collapsed = true) (hlock : now - s.lastToggle > 260) :
    (current - s.last ≤ -24 ∧ current < 80 →
      (update s current now).collapsed = false ∧
      (update s current now).headerCollapsed = false) ∧
    (current ≤ 40 ∧ |current - s.last| ≥ 24 →
      (update s current now).collapsed = false ∧
      (update s current now).headerCollapsed = false) := by
  constructor
  · rintro ⟨hd, hc⟩
    have h1 : ¬ ((current - s.last).natAbs : Int) < MIN_DELTA := by
      simp only [MIN_DELTA]
      omega
    have h3 : ((current < 80 ∧ current - s.last < 0 ∧ s.collapsed = true) ∨ current ≤ 40)
        ∧ now - s.lastToggle > TOGGLE_LOCK :=
      ⟨Or.inl ⟨hc, by omega, hcol⟩, by simpa [TOGGLE_LOCK] using hlock⟩
    have h2 : ¬ (current > 120 ∧ current - s.last > 0 ∧ s.collapsed = false ∧
        now - s.lastToggle > TOGGLE_LOCK) := by
      simp [hcol]
    simp only [update, if_neg h1, if_neg h2, if_pos h3, and_self]
  · rintro ⟨hc, hd⟩
    have h1 : ¬ ((current - s.last).natAbs : Int) < MIN_DELTA := by
      simp only [MIN_DELTA]
      rw [Int.natCast_natAbs]
      omega
    have h2 : ¬ (current > 120 ∧ current - s.last > 0 ∧ s.collapsed = false ∧
        now - s.lastToggle > TOGGLE_LOCK) := by
      simp [hcol]
    have h3 : ((current < 80 ∧ current - s.last < 0 ∧ s.collapsed = true) ∨ current ≤ 40)
        ∧ now - s.lastToggle > TOGGLE_LOCK :=
      ⟨Or.inr hc, by simpa [TOGGLE_LOCK] using hlock⟩
    simp only [update, if_neg h1, if_neg h2, if_pos h3, and_self]

/-- Witness for C9 amended: collapsed at offset 600, then an upward scroll to 70 and,
from 100, a scroll to 30, both at time 1000. -/
theorem expand_on_scroll_up_near_top_witness :
    (update scrollInit 600 300).collapsed = true ∧
    ((update (update scrollInit 600 300) 70 1000).collapsed = false ∧
      (update (update scrollInit 600 300) 70 1000).headerCollapsed = false) ∧
    ((update (update scrollInit 600 300) 30 1000).collapsed = false ∧
      (update (update scrollInit 600 300) 30 1000).headerCollapsed = false) :=
  ⟨by decide,
   (expand_on_scroll_up_near_top (update scrollInit 600 300) 70 1000 (by decide)
      (by decide)).1 ⟨by decide, by decide⟩,
   (expand_on_scroll_up_near_top (update scrollInit 600 300) 30 1000 (by decide)
      (by decide)).2 ⟨by decide, by decide⟩⟩

end NoviceHall
